import Mathlib

/-!
Shallow embedding of `src/index.ts` of pvdstel/typescript-typed-routes.

The runtime of the library manipulates JavaScript values: strings, numbers,
`undefined` and `null` (the last two matter because `undefined` is the
absence marker tested with `!==` in the source, while any other value is
interpolated into the path).  We model the JavaScript values that can flow
into the fillers with `JSVal`, and template-literal interpolation with
`jsToStr`.

The source type `FilledType = string | ((arg: any) => FilledType)` is
modelled by `Filled n`, indexed by the number of curried applications
needed to reach a plain string.  Every `FilledType` value the program
constructs has a uniform depth (both branches of every conditional in
`makeFilledCurry` and `addSegment` produce results of the same depth), so
the index is faithful to the reachable values and directly measures the
"number of curried steps" the specification talks about.
-/

/-- A JavaScript runtime value that can be passed to a filler. -/
inductive JSVal where
  | undef : JSVal
  | null : JSVal
  | num : Int → JSVal
  | str : String → JSVal
deriving DecidableEq

/-- JavaScript template-literal interpolation of a `JSVal`
(`undefined` prints as `undefined`, `null` as `null`). -/
def jsToStr : JSVal → String
  | JSVal.undef => "undefined"
  | JSVal.null => "null"
  | JSVal.num n => toString n
  | JSVal.str s => s

/-- The source type `FilledType = string | ((arg: any) => FilledType)`,
indexed by the number of curried applications needed to reach a string. -/
inductive Filled : Nat → Type where
  | str : String → Filled 0
  | fn : {n : Nat} → (JSVal → Filled n) → Filled (n + 1)

/-- Model of JavaScript stringification of a function value (what a template
literal produces when handed a closure).  The exact text is host-defined;
no theorem below depends on its value. -/
def funSrcString : String := "function"

/-- Template-literal coercion of a `FilledType` value to a string:
a string interpolates as itself, a function as its (host-defined) source. -/
def Filled.asString : {n : Nat} → Filled n → String
  | _, Filled.str s => s
  | _, Filled.fn _ => funSrcString

/-- Calling a pending `FilledType` function with one argument. -/
def Filled.app : {n : Nat} → Filled (n + 1) → JSVal → Filled n
  | _, Filled.fn f, v => f v

/-- Source function `makeFilledCurry`: defers execution of filling in the
values of route parameters.
```
if (typeof routeArgs === 'string') {
    return (arg) => arg !== undefined ? `${routeArgs}/${arg}` : routeArgs;
} else {
    return (arg) => {
        if (arg !== undefined) {
            const nestedArgs = routeArgs(arg);
            return makeFilledCurry(nestedArgs);
        } else {
            return routeArgs;
        }
    };
}
``` -/
def makeFilledCurry : {n : Nat} → Filled n → Filled (n + 1)
  | _, Filled.str s =>
      Filled.fn (fun arg =>
        if arg ≠ JSVal.undef then Filled.str (s ++ "/" ++ jsToStr arg) else Filled.str s)
  | _, Filled.fn f =>
      Filled.fn (fun arg =>
        if arg ≠ JSVal.undef then makeFilledCurry (f arg) else Filled.fn f)

/-- The depth of the `filled` field produced by `addSegment`: a string stays
a string, while any pending function is wrapped by exactly one function
layer whose body interpolates the inner result into a template literal. -/
def segIdx : Nat → Nat
  | 0 => 0
  | _ + 1 => 1

/-- The `filled` field built by `addSegment`:
```
typeof route.filled === 'string'
    ? `${route.filled}/${segment}`
    : (arg) => `${route.filled(arg)}/${segment}`
``` -/
def segFilled (seg : String) : {n : Nat} → Filled n → Filled (segIdx n)
  | 0, Filled.str s => Filled.str (s ++ "/" ++ seg)
  | _ + 1, Filled.fn f =>
      Filled.fn (fun arg => Filled.str (Filled.asString (f arg) ++ "/" ++ seg))

/-- The runtime content of an `ITypedRoute` object.  `parameters` is stored
as `undefined as any` by every constructor in the source, so it is carried
as a `JSVal` that is always `JSVal.undef`.  `fillAll` receives its
positional arguments as a list (missing arguments read as `undefined`,
extra arguments are ignored, as in JavaScript).  `nFilled` is the depth of
the curried `filled` value. -/
structure TypedRoute where
  template : String
  parameters : JSVal
  nFilled : Nat
  fillAll : List JSVal → String
  filled : Filled nFilled

/-- Source function `createRoute`: the empty route. -/
def createRoute : TypedRoute where
  template := ""
  parameters := JSVal.undef
  nFilled := 0
  fillAll := fun _ => ""
  filled := Filled.str ""

/-- Source function `addSegment`. -/
def addSegment (segment : String) (route : TypedRoute) : TypedRoute where
  template := route.template ++ "/" ++ segment
  parameters := JSVal.undef
  nFilled := segIdx route.nFilled
  fillAll := fun rest => route.fillAll rest ++ "/" ++ segment
  filled := segFilled segment route.filled

/-- Source function `addParameter`.  Its `fillAll` is
`(param, ...params) => ${route.fillAll(...params)}/${param}`: the head of
the argument list is the new parameter, the tail is forwarded to the
previous route. -/
def addParameter (name : String) (route : TypedRoute) : TypedRoute where
  template := route.template ++ "/:" ++ name
  parameters := JSVal.undef
  nFilled := route.nFilled + 1
  fillAll := fun args =>
    route.fillAll args.tail ++ "/" ++ jsToStr (args.headD JSVal.undef)
  filled := makeFilledCurry route.filled

/-- Source function `addOptionalParameter`.  Its `fillAll` is
`(param?, ...params) => param !== undefined ? ${route.fillAll(...params)}/${param} : route.fillAll(...params)`. -/
def addOptionalParameter (name : String) (route : TypedRoute) : TypedRoute where
  template := route.template ++ "/:" ++ name ++ "?"
  parameters := JSVal.undef
  nFilled := route.nFilled + 1
  fillAll := fun args =>
    if args.headD JSVal.undef ≠ JSVal.undef then
      route.fillAll args.tail ++ "/" ++ jsToStr (args.headD JSVal.undef)
    else
      route.fillAll args.tail
  filled := makeFilledCurry route.filled

/-- One append operation, as chosen by a caller: a literal segment, a
required parameter, or an optional parameter. -/
inductive Step where
  | seg : String → Step
  | param : String → Step
  | optParam : String → Step
deriving DecidableEq

/-- Applying one append operation to a route value. -/
def applyStep : Step → TypedRoute → TypedRoute
  | Step.seg s, r => addSegment s r
  | Step.param n, r => addParameter n r
  | Step.optParam n, r => addOptionalParameter n r

/-- Threading a route value through a sequence of append operations, in
application order. -/
def runRoute : List Step → TypedRoute → TypedRoute
  | [], r => r
  | st :: rest, r => runRoute rest (applyStep st r)

/-- Source class `TypedRouteBuilder`: holds one route value
(`_typedRoute`) which each chained call replaces. -/
structure TypedRouteBuilder where
  typedRoute : TypedRoute

/-- The constructor of `TypedRouteBuilder`:
`this._typedRoute = typedRoute || createRoute()`. -/
def mkTypedRouteBuilder (typedRoute : Option TypedRoute) : TypedRouteBuilder :=
  ⟨typedRoute.getD createRoute⟩

/-- The builder method `segment`. -/
def TypedRouteBuilder.segment (b : TypedRouteBuilder) (s : String) : TypedRouteBuilder :=
  ⟨addSegment s b.typedRoute⟩

/-- The builder method `parameter`. -/
def TypedRouteBuilder.parameter (b : TypedRouteBuilder) (name : String) : TypedRouteBuilder :=
  ⟨addParameter name b.typedRoute⟩

/-- The builder method `optionalParameter`. -/
def TypedRouteBuilder.optionalParameter (b : TypedRouteBuilder) (name : String) : TypedRouteBuilder :=
  ⟨addOptionalParameter name b.typedRoute⟩

/-- The builder method `build`: returns the held route value. -/
def TypedRouteBuilder.build (b : TypedRouteBuilder) : TypedRoute :=
  b.typedRoute

/-- Dispatching one `Step` to the corresponding builder method. -/
def builderStep : Step → TypedRouteBuilder → TypedRouteBuilder
  | Step.seg s, b => b.segment s
  | Step.param n, b => b.parameter n
  | Step.optParam n, b => b.optionalParameter n

/-- Chaining a sequence of builder calls, in application order. -/
def runBuilder : List Step → TypedRouteBuilder → TypedRouteBuilder
  | [], b => b
  | st :: rest, b => runBuilder rest (builderStep st b)

/-- Modelled from the spec: the template contribution of a single append
operation — a slash followed by the segment text, `/:name` for a required
parameter, `/:name?` for an optional one. -/
def stepTemplate : Step → String
  | Step.seg s => "/" ++ s
  | Step.param n => "/:" ++ n
  | Step.optParam n => "/:" ++ n ++ "?"

/-- Modelled from the spec: the concatenation, in application order, of the
template contributions of a sequence of append operations. -/
def specTemplate : List Step → String
  | [] => ""
  | st :: rest => stepTemplate st ++ specTemplate rest

/-- The number of parameters (required plus optional) in a sequence of
append operations. -/
def countParams : List Step → Nat
  | [] => 0
  | Step.seg _ :: rest => countParams rest
  | Step.param _ :: rest => countParams rest + 1
  | Step.optParam _ :: rest => countParams rest + 1

/-- A JavaScript heap of allocated route objects; object identity is the
index at which the object was allocated.  Each append operation in the
source evaluates to a fresh object literal (`return { template: ..., ... }`)
and contains no assignment to a property of an existing object, so its
heap effect is modelled as reading the input object and appending the
freshly constructed one. -/
def heapApplyStep (st : Step) (heap : List TypedRoute) (i : Nat) :
    List TypedRoute × Nat :=
  (heap ++ [applyStep st (heap.getD i createRoute)], heap.length)

/-- The route built as empty, then required parameter `a`, then required
parameter `b`. -/
def routeAB : TypedRoute := addParameter "b" (addParameter "a" createRoute)

/-- The route built as `routeAB` followed by the literal segment `s`. -/
def routeABS : TypedRoute := addSegment "s" routeAB

/-- The route built as empty, then segment `list`, then optional parameter
`page`. -/
def routeListPage : TypedRoute :=
  addOptionalParameter "page" (addSegment "list" createRoute)

/-- The operation sequence behind `routeABS`: two required parameters
followed by a literal segment. -/
def stepsABS : List Step := [Step.param "a", Step.param "b", Step.seg "s"]

/-- Calling the curry step produced by `makeFilledCurry` with the absence
marker `undefined` returns the wrapped value unchanged, whether it is a
plain string or a pending function. -/
theorem makeFilledCurry_app_undef {n : Nat} (x : Filled n) :
    (makeFilledCurry x).app JSVal.undef = x := by
  cases x with
  | str s => simp [makeFilledCurry, Filled.app]
  | fn f => simp [makeFilledCurry, Filled.app]

/-- The builder started on any route value applies exactly the standalone
operations to that value, step by step. -/
theorem runBuilder_run (steps : List Step) (r : TypedRoute) :
    runBuilder steps ⟨r⟩ = ⟨runRoute steps r⟩ := by
  induction steps generalizing r with
  | nil => rfl
  | cons st rest ih => cases st <;> exact ih _

/-- Running a sequence of append operations appends the per-step template
contributions to the starting template. -/
theorem runRoute_template (steps : List Step) :
    ∀ r : TypedRoute, (runRoute steps r).template = r.template ++ specTemplate steps := by
  induction steps with
  | nil => intro r; simp [runRoute, specTemplate, String.append_empty]
  | cons st rest ih =>
    intro r
    cases st <;>
      simp [runRoute, applyStep, specTemplate, stepTemplate, addSegment, addParameter,
        addOptionalParameter, ih, String.append_assoc]

/-- C1: evaluation of the code at the failing input.  For the route with
two pending required parameters followed by `addSegment "s"`, the claim
says the first `filled` call returns a function and only the second call
returns the final string with `/s` appended.  The code instead produces a
`filled` of curry depth 1: its single call interpolates the still-pending
inner function into a template literal, returning a terminal string made
of the stringified closure followed by `/s`. -/
theorem c1_segment_collapses_pending_chain :
    routeABS.nFilled = 1
    ∧ routeABS.filled.app (JSVal.num 1) = Filled.str (funSrcString ++ "/s") :=
  ⟨rfl, rfl⟩

/-- C2: for the route built as empty, then `addParameter a`, then
`addParameter b`, the curried filler consumes values in forward
declaration order, `filled(1)(2) = "/1/2"`, while the flat filler consumes
them in reverse declaration order, `fillAll(2, 1) = "/1/2"`. -/
theorem c2_multi_parameter_order :
    (routeAB.filled.app (JSVal.num 1)).app (JSVal.num 2) = Filled.str "/1/2"
    ∧ routeAB.fillAll [JSVal.num 2, JSVal.num 1] = "/1/2" :=
  ⟨rfl, rfl⟩

/-- C3: evaluation of the code at the failing input.  The claimed invariant
is that the number of curried steps in `filled` equals the number of
parameters added so far; for the sequence parameter `a`, parameter `b`,
segment `s` the parameter count is 2 but the produced `filled` reaches a
plain string after a single call. -/
theorem c3_step_count_mismatch :
    countParams stepsABS = 2 ∧ (runRoute stepsABS createRoute).nFilled = 1 :=
  ⟨rfl, rfl⟩

/-- C4: for the route built as empty, then `addSegment "list"`, then
`addOptionalParameter page`: `filled(undefined) = "/list"`,
`filled(5) = "/list/5"`, `fillAll(undefined) = "/list"` and
`fillAll(7) = "/list/7"`; passing `undefined` for the optional parameter
omits its path component in both fillers. -/
theorem c4_optional_omission :
    routeListPage.filled.app JSVal.undef = Filled.str "/list"
    ∧ routeListPage.filled.app (JSVal.num 5) = Filled.str "/list/5"
    ∧ routeListPage.fillAll [JSVal.undef] = "/list"
    ∧ routeListPage.fillAll [JSVal.num 7] = "/list/7" :=
  ⟨rfl, rfl, rfl, rfl⟩

/-- C5: supplying `undefined` at runtime for a required parameter is not
detected or rejected: for every route, `fillAll` interpolates it, yielding
the literal text `/undefined` at that position, while the corresponding
`filled` curry step treats it as omission and returns the inner chain
unchanged — concretely, for the single-parameter route the step returns
the empty template string with the segment skipped, and for the
two-parameter route skipping `a` and then filling `b` yields `/2`. -/
theorem c5_required_undefined_unchecked :
    (∀ (r : TypedRoute) (name : String) (args : List JSVal),
      (addParameter name r).fillAll (JSVal.undef :: args)
        = r.fillAll args ++ "/" ++ "undefined"
      ∧ (addParameter name r).filled.app JSVal.undef = r.filled)
    ∧ (addParameter "id" createRoute).fillAll [JSVal.undef] = "/undefined"
    ∧ (addParameter "id" createRoute).filled.app JSVal.undef = Filled.str ""
    ∧ ((addParameter "b" (addParameter "a" createRoute)).filled.app JSVal.undef).app
        (JSVal.num 2) = Filled.str "/2" :=
  ⟨fun r _ _ => ⟨rfl, makeFilledCurry_app_undef r.filled⟩, rfl, rfl, rfl⟩

/-- C6: for every sequence of segment, parameter and optional-parameter
steps, chaining them through a `TypedRouteBuilder` constructed with no
argument and then calling `build` yields exactly the route value obtained
by composing the standalone operations on `createRoute` in the same
order. -/
theorem c6_builder_equivalence (steps : List Step) :
    (runBuilder steps (mkTypedRouteBuilder none)).build = runRoute steps createRoute := by
  have h := runBuilder_run steps createRoute
  simp [mkTypedRouteBuilder, Option.getD] at h ⊢
  rw [h]
  rfl

/-- C7: the empty route has template `""`, and for every sequence of append
operations starting from `createRoute` the resulting `template` is the
concatenation, in application order, of `/segment` for each segment,
`/:name` for each required parameter and `/:name?` for each optional
parameter. -/
theorem c7_template_concat (steps : List Step) :
    createRoute.template = ""
    ∧ (runRoute steps createRoute).template = specTemplate steps := by
  refine ⟨rfl, ?_⟩
  rw [runRoute_template steps createRoute]
  exact String.empty_append _

/-- C8: append operations do not mutate existing route objects.  In the
heap model, applying any append operation to the route at any index leaves
every previously allocated route object — in particular the input route —
unchanged in the resulting heap. -/
theorem c8_no_mutation (st : Step) (heap : List TypedRoute) (i j : Nat)
    (hj : j < heap.length) :
    ((heapApplyStep st heap i).1).getD j createRoute = heap.getD j createRoute := by
  simp [heapApplyStep, List.getD, List.getElem?_append_left hj]

/-- Witness for C8, at a one-object heap and a segment operation. -/
theorem c8_no_mutation_witness :
    0 < [createRoute].length
    ∧ ((heapApplyStep (Step.seg "x") [createRoute] 0).1).getD 0 createRoute
        = [createRoute].getD 0 createRoute :=
  ⟨by decide, c8_no_mutation (Step.seg "x") [createRoute] 0 0 (by decide)⟩

/-- C9: in the recursive case of `makeFilledCurry`, the new curried
function called with a defined argument invokes the inner pending function
with it and applies the same deferral to the result, while called with the
absence marker `undefined` it returns the inner pending function
unchanged; in the base case, `undefined` yields the finished string
itself. -/
theorem c9_recursive_curry_step {n : Nat} (f : JSVal → Filled n) (v : JSVal)
    (hv : v ≠ JSVal.undef) (s : String) :
    (makeFilledCurry (Filled.fn f)).app v = makeFilledCurry (f v)
    ∧ (makeFilledCurry (Filled.fn f)).app JSVal.undef = Filled.fn f
    ∧ (makeFilledCurry (Filled.str s)).app JSVal.undef = Filled.str s := by
  refine ⟨?_, ?_, ?_⟩ <;> simp [makeFilledCurry, Filled.app, hv]

/-- Witness for C9, at a concrete one-step inner function and argument 3. -/
theorem c9_recursive_curry_step_witness :
    (JSVal.num 3 ≠ JSVal.undef)
    ∧ ((makeFilledCurry (Filled.fn (fun arg => Filled.str (jsToStr arg)))).app (JSVal.num 3)
        = makeFilledCurry (Filled.str (jsToStr (JSVal.num 3)))
      ∧ (makeFilledCurry (Filled.fn (fun arg => Filled.str (jsToStr arg)))).app JSVal.undef
        = Filled.fn (fun arg => Filled.str (jsToStr arg))
      ∧ (makeFilledCurry (Filled.str "/x")).app JSVal.undef = Filled.str "/x") :=
  ⟨by decide,
    c9_recursive_curry_step (fun arg => Filled.str (jsToStr arg)) (JSVal.num 3) (by decide) "/x"⟩

/-- C10: the absence marker is strictly `undefined`: any other value passed
for an optional parameter — including `null` — is treated as present and
interpolated into the path by both `fillAll` and the `filled` curry step;
concretely `null` produces `/null`. -/
theorem c10_strict_undefined_marker (r : TypedRoute) (name : String) (v : JSVal)
    (args : List JSVal) (hv : v ≠ JSVal.undef) (s : String) :
    ((addOptionalParameter name r).fillAll (v :: args)
        = r.fillAll args ++ "/" ++ jsToStr v
      ∧ (makeFilledCurry (Filled.str s)).app v = Filled.str (s ++ "/" ++ jsToStr v))
    ∧ (addOptionalParameter "p" createRoute).fillAll [JSVal.null] = "/null"
    ∧ (addOptionalParameter "p" createRoute).filled.app JSVal.null = Filled.str "/null" := by
  refine ⟨⟨?_, ?_⟩, rfl, rfl⟩
  · simp [addOptionalParameter, hv]
  · simp [makeFilledCurry, Filled.app, hv]

/-- Witness for C10, at the value `null` on a fresh optional-parameter
route. -/
theorem c10_strict_undefined_marker_witness :
    (JSVal.null ≠ JSVal.undef)
    ∧ (((addOptionalParameter "q" createRoute).fillAll [JSVal.null]
          = createRoute.fillAll [] ++ "/" ++ jsToStr JSVal.null
        ∧ (makeFilledCurry (Filled.str "")).app JSVal.null
          = Filled.str ("" ++ "/" ++ jsToStr JSVal.null))
      ∧ (addOptionalParameter "p" createRoute).fillAll [JSVal.null] = "/null"
      ∧ (addOptionalParameter "p" createRoute).filled.app JSVal.null = Filled.str "/null") :=
  ⟨by decide, c10_strict_undefined_marker createRoute "q" JSVal.null [] (by decide) ""⟩
